import Mathlib

set_option maxRecDepth 8192

/-!
Shallow embedding of the Passless authentication library.

The embedded program is the `Passless` class of `src/passless.js`: an OAuth
authorization-URL builder (`getAuthUrl`), an OAuth code exchanger
(`exchangeCode` with the private helpers `#exchangeOAuthCode` / `#fetchJson`),
and the passkey orchestration methods working over two JS `Map` stores
(`challengeStore`, `credentialStore`).  The byte-level base64 helpers
`arrayBufferToBase64` / `base64ToArrayBuffer` of `src/src/passkey.ts` are
embedded as well.

Modelling conventions:
* JS strings are `String`; a missing/`undefined` string argument is the empty
  string, so JS truthiness `!s` becomes `s = ""` and `a || b` becomes `jsOr`.
* JS `Map` objects are insertion-ordered association lists with `mapGet`,
  `mapSet` (replace-in-place or append) and `mapDelete`.
* Byte buffers are `List Nat` with every entry `< 256`.
* External collaborators (`fetch`, `@simplewebauthn/server`) are oracle
  function parameters; the HTTP calls actually performed are returned as an
  explicit trace.
-/
/-! ## JS `Map` and string-truthiness helpers -/
/-- JS Map.get: the value stored under `k`, if any. -/
def mapGet {α : Type} (m : List (String × α)) (k : String) : Option α :=
  (m.find? (fun p => p.1 = k)).map (fun p => p.2)

/-- JS Map.set: replace the value under `k` in place, or append a new entry. -/
def mapSet {α : Type} (m : List (String × α)) (k : String) (v : α) :
    List (String × α) :=
  if m.any (fun p => p.1 = k) then
    m.map (fun p => if p.1 = k then (k, v) else p)
  else m ++ [(k, v)]

/-- JS Map.delete: remove the entry stored under `k`. -/
def mapDelete {α : Type} (m : List (String × α)) (k : String) :
    List (String × α) :=
  m.filter (fun p => ¬ p.1 = k)

/-- JS `a || b` on strings (`""` is the only falsy string here). -/
def jsOr (a b : String) : String := if a = "" then b else a

/-- UTF-8 encoding of one Unicode scalar value, as a byte list. -/
def utf8EncodeCodepoint (n : Nat) : List Nat :=
  if n < 128 then [n]
  else if n < 2048 then [192 + n / 64, 128 + n % 64]
  else if n < 65536 then [224 + n / 4096, 128 + (n / 64) % 64, 128 + n % 64]
  else [240 + n / 262144, 128 + (n / 4096) % 64, 128 + (n / 64) % 64, 128 + n % 64]

/-- The UTF-8 bytes of a string. -/
def utf8Nat (s : String) : List Nat := s.data.flatMap (fun c => utf8EncodeCodepoint c.toNat)

/-- Uppercase hexadecimal digit for `n < 16`. -/
def hexDig (n : Nat) : Char :=
  if n < 10 then Char.ofNat (48 + n) else Char.ofNat (55 + n)

/-- Value of a hexadecimal digit character. -/
def hexVal (c : Char) : Option Nat :=
  if 48 ≤ c.toNat ∧ c.toNat ≤ 57 then some (c.toNat - 48)
  else if 65 ≤ c.toNat ∧ c.toNat ≤ 70 then some (c.toNat - 55)
  else if 97 ≤ c.toNat ∧ c.toNat ≤ 102 then some (c.toNat - 87)
  else none

/-- Bytes kept verbatim by the `application/x-www-form-urlencoded` serializer. -/
def isSafeByte (b : Nat) : Bool :=
  b == 42 || b == 45 || b == 46 || b == 95 ||
  (48 ≤ b && b ≤ 57) || (65 ≤ b && b ≤ 90) || (97 ≤ b && b ≤ 122)

/-- Percent-encode one byte (`0x20` becomes `+`). -/
def encodeByte (b : Nat) : List Char :=
  if b = 32 then ['+']
  else if isSafeByte b then [Char.ofNat b]
  else ['%', hexDig (b / 16), hexDig (b % 16)]

/-- Percent-encode a byte sequence. -/
def urlencodeChars (bs : List Nat) : List Char := bs.flatMap encodeByte

/-- Encoding of a string component as `URLSearchParams` does it (UTF-8 then percent). -/
def urlencode (s : String) : String := String.mk (urlencodeChars (utf8Nat s))

/-- Percent-decode one byte from the front of a character sequence; the
specification-side inverse used to state encoding correctness. -/
def decodeStep : List Char → Option (Nat × List Char)
  | [] => none
  | c :: rest =>
    if c = '+' then some (32, rest)
    else if c = '%' then
      match rest with
      | c1 :: c2 :: rest2 =>
        match hexVal c1, hexVal c2 with
        | some h1, some h2 => some (16 * h1 + h2, rest2)
        | _, _ => none
      | _ => none
    else if isSafeByte c.toNat then some (c.toNat, rest) else none

/-- Percent-decode a whole character sequence back to its byte sequence
(`none` on malformed input). -/
def decodeChars (cs : List Char) : Option (List Nat) :=
  if cs.isEmpty then some []
  else
    match hstep : decodeStep cs with
    | none => none
    | some (b, rest) => (decodeChars rest).map (fun bs => b :: bs)
termination_by cs.length
decreasing_by
  cases cs with
  | nil => simp [decodeStep] at hstep
  | cons c cs2 =>
    simp only [decodeStep] at hstep
    split_ifs at hstep with h1 h2 h3
    · cases hstep; simp
    · split at hstep
      · split at hstep
        · cases hstep
          simp only [List.length_cons]
          omega
        · exact absurd hstep (by simp)
      · exact absurd hstep (by simp)
    · cases hstep; simp

/-! ## Query-string serialization and its parser

`formEncode` models `URLSearchParams.toString()`: each pair is serialized as
`key=value` with both components percent-encoded, and pairs are joined with
`&`.  `parseQueryChars` is the specification-side parser: split on `&`, split
each component at the first `=`, percent-decode both sides. -/
/-- One `key=value` component of a serialized query. -/
def encodePairChars (p : String × String) : List Char :=
  urlencodeChars (utf8Nat p.1) ++ '=' :: urlencodeChars (utf8Nat p.2)

/-- The serialized query of `URLSearchParams` built from `ps`, as characters. -/
def formEncodeChars : List (String × String) → List Char
  | [] => []
  | [p] => encodePairChars p
  | p :: q :: rest => encodePairChars p ++ '&' :: formEncodeChars (q :: rest)

/-- Serialization `URLSearchParams(ps).toString()`. -/
def formEncode (ps : List (String × String)) : String :=
  String.mk (formEncodeChars ps)

/-- Split a character sequence on `&`. -/
def splitOnAmp : List Char → List (List Char)
  | [] => [[]]
  | c :: rest =>
    if c = '&' then [] :: splitOnAmp rest
    else
      match splitOnAmp rest with
      | [] => [[c]]
      | g :: gs => (c :: g) :: gs

/-- Split a component at its first `=`. -/
def splitKV : List Char → Option (List Char × List Char)
  | [] => none
  | c :: rest =>
    if c = '=' then some ([], rest)
    else (splitKV rest).map (fun p => (c :: p.1, p.2))

/-- Parse one `key=value` component into decoded key and value bytes. -/
def parsePairChars (comp : List Char) : Option (List Nat × List Nat) :=
  match splitKV comp with
  | none => none
  | some (k, v) =>
    match decodeChars k, decodeChars v with
    | some kb, some vb => some (kb, vb)
    | _, _ => none

/-- Parse a list of `key=value` components, failing if any component fails. -/
def parseComponents : List (List Char) → Option (List (List Nat × List Nat))
  | [] => some []
  | comp :: rest =>
    match parsePairChars comp, parseComponents rest with
    | some p, some ps => some (p :: ps)
    | _, _ => none

/-- Parse a whole query string into its decoded key/value pairs. -/
def parseQueryChars (cs : List Char) : Option (List (List Nat × List Nat)) :=
  parseComponents (splitOnAmp cs)

/-! ## base64 (`btoa`/`atob`) and base64url (`Buffer` with base64url encoding)

`arrayBufferToBase64` in `src/src/passkey.ts` turns each byte into a
char-code and calls `btoa`; `base64ToArrayBuffer` calls `atob` and reads the
char-codes back.  Both are modelled byte-for-byte.  `Buffer.toString
(base64url)` (used in `src/passless.js` to key the credential store) is the
URL-safe alphabet without padding. -/
/-- Standard base64 alphabet character of a sextet. -/
def b64Char (n : Nat) : Char :=
  if n < 26 then Char.ofNat (65 + n)
  else if n < 52 then Char.ofNat (97 + (n - 26))
  else if n < 62 then Char.ofNat (48 + (n - 52))
  else if n = 62 then '+'
  else '/'

/-- Sextet value of a standard base64 alphabet character. -/
def b64Val (c : Char) : Option Nat :=
  if 65 ≤ c.toNat ∧ c.toNat ≤ 90 then some (c.toNat - 65)
  else if 97 ≤ c.toNat ∧ c.toNat ≤ 122 then some (c.toNat - 97 + 26)
  else if 48 ≤ c.toNat ∧ c.toNat ≤ 57 then some (c.toNat - 48 + 52)
  else if c = '+' then some 62
  else if c = '/' then some 63
  else none

/-- Model of `btoa` on a byte sequence: standard base64 with `=` padding. -/
def base64EncodeChars : List Nat → List Char
  | [] => []
  | [a] => [b64Char (a / 4), b64Char (a % 4 * 16), '=', '=']
  | [a, b] =>
    [b64Char (a / 4), b64Char (a % 4 * 16 + b / 16), b64Char (b % 16 * 4), '=']
  | a :: b :: c :: rest =>
    b64Char (a / 4) :: b64Char (a % 4 * 16 + b / 16) ::
      b64Char (b % 16 * 4 + c / 64) :: b64Char (c % 64) ::
        base64EncodeChars rest

/-- Decode one base64 quartet (padding allowed in the last two slots). -/
def base64DecodeGroup (c1 c2 c3 c4 : Char) : Option (List Nat) :=
  match b64Val c1, b64Val c2 with
  | some v1, some v2 =>
    if c3 = '=' then
      if c4 = '=' then some [v1 * 4 + v2 / 16] else none
    else
      match b64Val c3 with
      | some v3 =>
        if c4 = '=' then some [v1 * 4 + v2 / 16, v2 % 16 * 16 + v3 / 4]
        else
          match b64Val c4 with
          | some v4 =>
            some [v1 * 4 + v2 / 16, v2 % 16 * 16 + v3 / 4, v3 % 4 * 64 + v4]
          | none => none
      | none => none
  | _, _ => none

/-- Model of `atob`: decode a base64 character sequence (`none` on malformed input). -/
def base64DecodeChars : List Char → Option (List Nat)
  | [] => some []
  | c1 :: c2 :: c3 :: c4 :: rest =>
    if c3 = '=' ∨ c4 = '=' then
      if rest = [] then base64DecodeGroup c1 c2 c3 c4 else none
    else
      match base64DecodeGroup c1 c2 c3 c4, base64DecodeChars rest with
      | some g, some gs => some (g ++ gs)
      | _, _ => none
  | _ => none

/-- URL-safe base64 alphabet character of a sextet. -/
def b64UrlChar (n : Nat) : Char :=
  if n < 26 then Char.ofNat (65 + n)
  else if n < 52 then Char.ofNat (97 + (n - 26))
  else if n < 62 then Char.ofNat (48 + (n - 52))
  else if n = 62 then '-'
  else '_'

/-- Node `Buffer.from(bytes).toString(base64url)`: URL-safe alphabet, no
padding. -/
def base64urlEncodeChars : List Nat → List Char
  | [] => []
  | [a] => [b64UrlChar (a / 4), b64UrlChar (a % 4 * 16)]
  | [a, b] =>
    [b64UrlChar (a / 4), b64UrlChar (a % 4 * 16 + b / 16), b64UrlChar (b % 16 * 4)]
  | a :: b :: c :: rest =>
    b64UrlChar (a / 4) :: b64UrlChar (a % 4 * 16 + b / 16) ::
      b64UrlChar (b % 16 * 4 + c / 64) :: b64UrlChar (c % 64) ::
        base64urlEncodeChars rest

/-- String form of the base64url encoding. -/
def base64urlEncode (bs : List Nat) : String := String.mk (base64urlEncodeChars bs)

namespace PasskeyAuth

/-- Embedding of `PasskeyAuth.arrayBufferToBase64` (`src/src/passkey.ts`): each byte of the
buffer becomes a char-code, then `btoa` base64-encodes that binary string. -/
def arrayBufferToBase64 (buffer : List Nat) : String :=
  String.mk (base64EncodeChars buffer)

/-- Embedding of `PasskeyAuth.base64ToArrayBuffer` (`src/src/passkey.ts`): `atob`, then the
char-codes become the bytes of the buffer.  `atob` throws on malformed input,
modelled as `none`. -/
def base64ToArrayBuffer (base64 : String) : Option (List Nat) :=
  base64DecodeChars base64.data

end PasskeyAuth

/-! ## The `Passless` data model (`src/passless.js`) -/
/-- Per-provider OAuth configuration section. -/
structure OAuthProviderConfig where
  clientId : String
  clientSecret : String
  redirectUri : String
deriving DecidableEq

/-- Passkey configuration section (`rpName`, `rpId`, `origin`). -/
structure PasskeySectionConfig where
  rpName : String
  rpId : String
  origin : String
deriving DecidableEq

/-- The merged `this.config` of a `Passless` instance. -/
structure PasslessConfig where
  google : OAuthProviderConfig
  yandex : OAuthProviderConfig
  passkey : PasskeySectionConfig
deriving DecidableEq

/-- A value of the challenge store: `{ userId, createdAt }`. -/
structure ChallengeRecord where
  userId : String
  createdAt : Nat
deriving DecidableEq

/-- A value of the credential store. -/
structure CredentialRecord where
  userId : String
  credentialID : List Nat
  credentialPublicKey : List Nat
  counter : Nat
  transports : List String
deriving DecidableEq

/-- The mutable state of a `Passless` instance: its configuration and the two
in-memory stores. -/
structure PasslessState where
  config : PasslessConfig
  challengeStore : List (String × ChallengeRecord)
  credentialStore : List (String × CredentialRecord)
deriving DecidableEq

/-! ## `getAuthUrl` -/
/-- Embedding of `getAuthUrl(provider, state)`.  The method only reads `this.config` and
mutates nothing, so it is embedded as a pure function of the configuration;
a thrown error is `Except.error` with the thrown message. -/
def getAuthUrl (cfg : PasslessConfig) (provider st : String) : Except String String :=
  if provider = "google" then
    .ok ("https://accounts.google.com/o/oauth2/v2/auth?" ++ formEncode
      [("client_id", cfg.google.clientId),
       ("redirect_uri", cfg.google.redirectUri),
       ("response_type", "code"),
       ("scope", "openid email profile"),
       ("access_type", "offline"),
       ("prompt", "consent"),
       ("state", st)])
  else if provider = "yandex" then
    .ok ("https://oauth.yandex.com/authorize?" ++ formEncode
      [("client_id", cfg.yandex.clientId),
       ("redirect_uri", cfg.yandex.redirectUri),
       ("response_type", "code"),
       ("scope", "login:info login:email"),
       ("state", st)])
  else .error "Unsupported provider. Use \"google\" or \"yandex\"."

/-! ## `exchangeCode` -/
/-- The parsed JSON body of a token-endpoint response; the code only reads
`access_token` and returns the object unmodified. -/
structure OAuthToken where
  accessToken : String
deriving DecidableEq

/-- The parsed JSON body of a profile-endpoint response (opaque payload). -/
structure OAuthProfile where
  payload : String
deriving DecidableEq

/-- Shape a `fetch` resolves to: `ok`/`status`, the `text()` body and the
`json()` body. -/
structure FetchResult (α : Type) where
  ok : Bool
  status : Nat
  body : String
  json : α

/-- The form fields POSTed to a token endpoint by `#exchangeOAuthCode`. -/
structure TokenRequest where
  tokenEndpoint : String
  clientId : String
  clientSecret : String
  code : String
  redirectUri : String
deriving DecidableEq

/-- Trace entry: one HTTP call actually performed by `exchangeCode`. -/
inductive FetchCall where
  | token (req : TokenRequest)
  | profile (url accessToken : String)
deriving DecidableEq

/-- Embedding of `#exchangeOAuthCode` after its `fetch` resolved to `res`: non-`ok`
responses throw `Token exchange failed (status): body`, otherwise the JSON
token is returned. -/
def exchangeOAuthCode (res : FetchResult OAuthToken) : Except String OAuthToken :=
  if !res.ok then
    .error ("Token exchange failed (" ++ toString res.status ++ "): " ++ res.body)
  else .ok res.json

/-- Embedding of `#fetchJson` after its `fetch` resolved to `res`. -/
def fetchJson (res : FetchResult OAuthProfile) : Except String OAuthProfile :=
  if !res.ok then
    .error ("Profile fetch failed (" ++ toString res.status ++ "): " ++ res.body)
  else .ok res.json

/-- The token request that the `google`/`yandex` branch of `exchangeCode`
builds (used to state which request the oracle answers). -/
def tokenRequestFor (cfg : PasslessConfig) (provider code overrideRedirectUri : String) :
    TokenRequest :=
  if provider = "google" then
    { tokenEndpoint := "https://oauth2.googleapis.com/token",
      clientId := cfg.google.clientId, clientSecret := cfg.google.clientSecret,
      code := code, redirectUri := jsOr overrideRedirectUri cfg.google.redirectUri }
  else
    { tokenEndpoint := "https://oauth.yandex.com/token",
      clientId := cfg.yandex.clientId, clientSecret := cfg.yandex.clientSecret,
      code := code, redirectUri := jsOr overrideRedirectUri cfg.yandex.redirectUri }

/-- Embedding of `exchangeCode(provider, code, overrideRedirectUri)`.  The two `fetch`
calls are oracles (`fetchPost` for the token POST, `fetchGet` for the profile
GET); alongside the result, the list of HTTP calls actually performed is
returned as an explicit trace. -/
def exchangeCode (cfg : PasslessConfig) (provider code overrideRedirectUri : String)
    (fetchPost : TokenRequest → FetchResult OAuthToken)
    (fetchGet : String → String → FetchResult OAuthProfile) :
    Except String (OAuthToken × OAuthProfile) × List FetchCall :=
  if code = "" then (.error "Authorization code is required.", [])
  else if provider = "google" then
    let req := tokenRequestFor cfg "google" code overrideRedirectUri
    match exchangeOAuthCode (fetchPost req) with
    | .error e => (.error e, [.token req])
    | .ok token =>
      let url := "https://openidconnect.googleapis.com/v1/userinfo"
      match fetchJson (fetchGet url token.accessToken) with
      | .error e => (.error e, [.token req, .profile url token.accessToken])
      | .ok profile =>
        (.ok (token, profile), [.token req, .profile url token.accessToken])
  else if provider = "yandex" then
    let req := tokenRequestFor cfg "yandex" code overrideRedirectUri
    match exchangeOAuthCode (fetchPost req) with
    | .error e => (.error e, [.token req])
    | .ok token =>
      let url := "https://login.yandex.ru/info?format=json"
      match fetchJson (fetchGet url token.accessToken) with
      | .error e => (.error e, [.token req, .profile url token.accessToken])
      | .ok profile =>
        (.ok (token, profile), [.token req, .profile url token.accessToken])
  else (.error "Unsupported provider. Use \"google\" or \"yandex\".", [])

/-! ## Passkey operations

The WebAuthn library functions (`generateRegistrationOptions`,
`generateAuthenticationOptions`, `verifyRegistrationResponse`,
`verifyAuthenticationResponse`) are external collaborators, passed in as
oracle functions receiving exactly the data the code hands them.
`Date.now()` is the parameter `now`. -/
/-- Credential descriptor with id, type and transports, built for the
exclude/allow lists. -/
structure CredentialDescriptor where
  id : List Nat
  type : String
  transports : List String
deriving DecidableEq

/-- The argument object of `generateRegistrationOptions`. -/
structure RegistrationOptionsRequest where
  rpName : String
  rpID : String
  userID : String
  userName : String
  userDisplayName : String
  attestationType : String
  excludeCredentials : List CredentialDescriptor
deriving DecidableEq

/-- The argument object of `generateAuthenticationOptions`. -/
structure AuthenticationOptionsRequest where
  rpID : String
  allowCredentials : List CredentialDescriptor
deriving DecidableEq

/-- A generated options object; the code reads only `options.challenge` and
returns the object unmodified. -/
structure GeneratedOptions where
  challenge : String
deriving DecidableEq

/-- A registration response as `verifyPasskeyRegistrationResponse` reads it:
`response.challenge` (challenge fallback) and `response.transports`
(`none` when the field is absent). -/
structure RegistrationResponse where
  challenge : String
  transports : Option (List String)
deriving DecidableEq

/-- The `registrationInfo` of a library verification result.  The code reads
`credentialID`, `credentialPublicKey` and `counter`; `transports` models the
transports the library could report, which the code never reads. -/
structure RegistrationInfo where
  credentialID : List Nat
  credentialPublicKey : List Nat
  counter : Nat
  transports : List String
deriving DecidableEq

/-- Result of `verifyRegistrationResponse`. -/
structure RegistrationVerification where
  verified : Bool
  registrationInfo : RegistrationInfo
deriving DecidableEq

/-- An authentication response as `verifyPasskeyAuthenticationResponse` reads
it: `response.id`/`response.rawId` (credential key) and `response.challenge`. -/
structure AuthenticationResponse where
  id : String
  rawId : String
  challenge : String
deriving DecidableEq

/-- The `authenticationInfo` of a library verification result. -/
structure AuthenticationInfo where
  newCounter : Nat
deriving DecidableEq

/-- Result of `verifyAuthenticationResponse`. -/
structure AuthenticationVerification where
  verified : Bool
  authenticationInfo : AuthenticationInfo
deriving DecidableEq

/-- The `credential` object handed to `verifyAuthenticationResponse`. -/
structure CredentialParam where
  id : List Nat
  publicKey : List Nat
  counter : Nat
  transports : List String
deriving DecidableEq

/-- Embedding of `#listCredentialsForUser`. -/
def listCredentialsForUser (s : PasslessState) (userId : String) :
    List CredentialRecord :=
  (s.credentialStore.map (fun p => p.2)).filter (fun c => c.userId = userId)

/-- Embedding of `#assertPasskeyConfig`: throws when `rpId` or `origin` is falsy. -/
def assertPasskeyConfig (cfg : PasslessConfig) : Except String Unit :=
  if cfg.passkey.rpId = "" || cfg.passkey.origin = "" then
    .error "Passkey configuration is missing rpId or origin."
  else .ok ()

/-- Embedding of `createPasskeyRegistrationOptions({ userId, username, displayName })`.
`gen` is the external `generateRegistrationOptions`; `now` is `Date.now()`. -/
def createPasskeyRegistrationOptions (s : PasslessState)
    (userId username displayName : String)
    (gen : RegistrationOptionsRequest → GeneratedOptions) (now : Nat) :
    Except String (GeneratedOptions × PasslessState) := do
  let _ ← assertPasskeyConfig s.config
  if userId = "" ∨ username = "" ∨ displayName = "" then
    throw "userId, username, and displayName are required."
  else
    let options := gen
      { rpName := s.config.passkey.rpName, rpID := s.config.passkey.rpId,
        userID := userId, userName := username, userDisplayName := displayName,
        attestationType := "none",
        excludeCredentials := (listCredentialsForUser s userId).map (fun cred =>
          { id := cred.credentialID, type := "public-key",
            transports := cred.transports }) }
    let entry : ChallengeRecord := { userId := userId, createdAt := now }
    pure (options,
      { s with challengeStore := mapSet s.challengeStore options.challenge entry })

/-- Embedding of `verifyPasskeyRegistrationResponse({ response, expectedChallenge })`.
`verify` is the external `verifyRegistrationResponse`, receiving the
response, the expected challenge, the expected origin and the expected
relying-party id. -/
def verifyPasskeyRegistrationResponse (s : PasslessState)
    (response : RegistrationResponse) (expectedChallenge : String)
    (verify : RegistrationResponse → String → String → String →
      RegistrationVerification) :
    Except String (RegistrationVerification × PasslessState) := do
  let _ ← assertPasskeyConfig s.config
  let challenge := jsOr expectedChallenge response.challenge
  if challenge = "" then throw "Unknown or expired registration challenge."
  else
    match mapGet s.challengeStore challenge with
    | none => throw "Unknown or expired registration challenge."
    | some record =>
      let verification :=
        verify response challenge s.config.passkey.origin s.config.passkey.rpId
      if verification.verified then
        let info := verification.registrationInfo
        let cred : CredentialRecord :=
          { userId := record.userId, credentialID := info.credentialID,
            credentialPublicKey := info.credentialPublicKey,
            counter := info.counter,
            transports := response.transports.getD [] }
        pure (verification,
          { s with
            credentialStore := mapSet s.credentialStore
              (base64urlEncode info.credentialID) cred,
            challengeStore := mapDelete s.challengeStore challenge })
      else pure (verification, s)

/-- Embedding of `createPasskeyAuthenticationOptions({ userId })`.  `gen` is the external
`generateAuthenticationOptions`; `now` is `Date.now()`. -/
def createPasskeyAuthenticationOptions (s : PasslessState) (userId : String)
    (gen : AuthenticationOptionsRequest → GeneratedOptions) (now : Nat) :
    Except String (GeneratedOptions × PasslessState) := do
  let _ ← assertPasskeyConfig s.config
  let options := gen
    { rpID := s.config.passkey.rpId,
      allowCredentials := (listCredentialsForUser s userId).map (fun cred =>
        { id := cred.credentialID, type := "public-key",
          transports := cred.transports }) }
  let entry : ChallengeRecord := { userId := userId, createdAt := now }
  pure (options,
    { s with challengeStore := mapSet s.challengeStore options.challenge entry })

/-- Embedding of `verifyPasskeyAuthenticationResponse({ response, expectedChallenge })`.
`verify` is the external `verifyAuthenticationResponse`, receiving the
response, the expected challenge, origin, relying-party id and the stored
credential. -/
def verifyPasskeyAuthenticationResponse (s : PasslessState)
    (response : AuthenticationResponse) (expectedChallenge : String)
    (verify : AuthenticationResponse → String → String → String →
      CredentialParam → AuthenticationVerification) :
    Except String (AuthenticationVerification × PasslessState) := do
  let _ ← assertPasskeyConfig s.config
  let challenge := jsOr expectedChallenge response.challenge
  if challenge = "" then throw "Unknown or expired authentication challenge."
  else
    match mapGet s.challengeStore challenge with
    | none => throw "Unknown or expired authentication challenge."
    | some _record =>
      let credentialIdB64 := jsOr response.id response.rawId
      match mapGet s.credentialStore credentialIdB64 with
      | none => throw "Unknown credential."
      | some stored =>
        let verification := verify response challenge
          s.config.passkey.origin s.config.passkey.rpId
          { id := stored.credentialID, publicKey := stored.credentialPublicKey,
            counter := stored.counter, transports := stored.transports }
        if verification.verified then
          let updated : CredentialRecord :=
            { stored with counter := verification.authenticationInfo.newCounter }
          pure (verification,
            { s with
              credentialStore := mapSet s.credentialStore credentialIdB64 updated,
              challengeStore := mapDelete s.challengeStore challenge })
        else pure (verification, s)

def cfgDemo : PasslessConfig :=
  { google := { clientId := "abc", clientSecret := "sec",
                redirectUri := "http://localhost/cb" },
    yandex := { clientId := "yid", clientSecret := "ysec",
                redirectUri := "http://localhost/ycb" },
    passkey := { rpName := "Passless", rpId := "example.com",
                 origin := "https://example.com" } }

def emptyState : PasslessState :=
  { config := cfgDemo, challengeStore := [], credentialStore := [] }

def regRespDemo : RegistrationResponse :=
  { challenge := "ch1", transports := some ["usb"] }

def regVerifierYes :
    RegistrationResponse → String → String → String → RegistrationVerification :=
  fun _ _ _ _ =>
    { verified := true,
      registrationInfo :=
        { credentialID := [1, 2, 3], credentialPublicKey := [9], counter := 5,
          transports := ["nfc"] } }

def regVerifierNo :
    RegistrationResponse → String → String → String → RegistrationVerification :=
  fun _ _ _ _ =>
    { verified := false,
      registrationInfo :=
        { credentialID := [], credentialPublicKey := [], counter := 0,
          transports := [] } }

def chalState : PasslessState :=
  { config := cfgDemo,
    challengeStore := [("ch1", { userId := "u1", createdAt := 0 })],
    credentialStore := [] }

def credState : PasslessState :=
  { config := cfgDemo,
    challengeStore := [("ch1", { userId := "u1", createdAt := 0 })],
    credentialStore :=
      [("AQID",
        { userId := "u1", credentialID := [1, 2, 3], credentialPublicKey := [9],
          counter := 5, transports := ["usb"] })] }

def authRespDemo : AuthenticationResponse :=
  { id := "AQID", rawId := "", challenge := "ch1" }

def authVerifierInc :
    AuthenticationResponse → String → String → String →
      CredentialParam → AuthenticationVerification :=
  fun _ _ _ _ cred =>
    { verified := true, authenticationInfo := { newCounter := cred.counter + 1 } }

def fetchPostFail : TokenRequest → FetchResult OAuthToken :=
  fun _ => { ok := false, status := 500, body := "boom",
             json := { accessToken := "" } }

def fetchGetDemo : String → String → FetchResult OAuthProfile :=
  fun _ _ => { ok := true, status := 200, body := "", json := { payload := "p" } }

def cfgNoRp : PasslessConfig :=
  { cfgDemo with passkey := { rpName := "Passless", rpId := "",
                              origin := "https://example.com" } }

def stateNoRp : PasslessState :=
  { config := cfgNoRp, challengeStore := [], credentialStore := [] }

def genRegDemo : RegistrationOptionsRequest → GeneratedOptions :=
  fun _ => { challenge := "chX" }

/-! ## Theorems -/

theorem mapGet_mapDelete {α : Type} (m : List (String × α)) (k : String) :
    mapGet (mapDelete m k) k = none := by
  unfold mapGet mapDelete
  have h : (m.filter (fun p => ¬ p.1 = k)).find? (fun p => p.1 = k) = none := by
    rw [List.find?_eq_none]
    intro p hp
    rw [List.mem_filter] at hp
    have := hp.2
    simp only [decide_not, Bool.not_eq_true'] at this ⊢
    simpa using this
  rw [h]
  rfl

theorem find?_replace_self {α : Type} (m : List (String × α)) (k : String) (v : α)
    (h : m.any (fun p => p.1 = k) = true) :
    (m.map (fun p => if p.1 = k then (k, v) else p)).find?
      (fun p => p.1 = k) = some (k, v) := by
  induction m with
  | nil => simp at h
  | cons p rest ih =>
    by_cases hp : p.1 = k
    · rw [List.map_cons, if_pos hp, List.find?_cons_of_pos _ (by simp)]
    · simp only [List.any_cons, Bool.or_eq_true, decide_eq_true_eq] at h
      rcases h with h | h
      · exact absurd h hp
      · rw [List.map_cons, if_neg hp,
          List.find?_cons_of_neg _ (by simpa using hp)]
        exact ih h

theorem find?_append_fresh {α : Type} (m : List (String × α)) (k : String) (v : α)
    (h : m.any (fun p => p.1 = k) = false) :
    (m ++ [(k, v)]).find? (fun p => p.1 = k) = some (k, v) := by
  rw [List.find?_append]
  have hnone : m.find? (fun p => decide (p.1 = k)) = none := by
    rw [List.find?_eq_none]
    intro x hx hpx
    have hk : m.any (fun p => p.1 = k) = true := List.any_eq_true.mpr ⟨x, hx, hpx⟩
    rw [h] at hk
    exact Bool.false_ne_true hk
  rw [hnone]
  simp

theorem mapGet_mapSet_self {α : Type} (m : List (String × α)) (k : String) (v : α) :
    mapGet (mapSet m k v) k = some v := by
  unfold mapGet mapSet
  by_cases h : m.any (fun p => p.1 = k)
  · rw [if_pos h, find?_replace_self m k v h]
    rfl
  · rw [if_neg h, find?_append_fresh m k v (by rwa [Bool.not_eq_true] at h)]
    rfl

/-! ## UTF-8 bytes and `URLSearchParams` percent-encoding

`URLSearchParams.toString()` serializes each key and value by UTF-8 encoding
the string and then applying the `application/x-www-form-urlencoded`
percent-encoder: bytes `*`, `-`, `.`, `_`, digits and ASCII letters are kept,
`0x20` becomes `+`, every other byte becomes `%XX` with uppercase hex. -/
theorem char_toNat_lt (c : Char) : c.toNat < 1114112 := by
  have h := c.valid
  rcases h with h | ⟨_, h2⟩
  · exact Nat.lt_trans h (by decide)
  · exact h2

theorem utf8EncodeCodepoint_lt (n : Nat) (hn : n < 1114112) :
    ∀ b ∈ utf8EncodeCodepoint n, b < 256 := by
  unfold utf8EncodeCodepoint
  split
  · intro b hb; simp at hb; omega
  · split
    · intro b hb; simp at hb
      rcases hb with h | h <;> omega
    · split
      · intro b hb; simp at hb
        rcases hb with h | h | h <;> omega
      · intro b hb; simp at hb
        rcases hb with h | h | h | h <;> omega

theorem utf8Nat_lt (s : String) : ∀ b ∈ utf8Nat s, b < 256 := by
  intro b hb
  unfold utf8Nat at hb
  rw [List.mem_flatMap] at hb
  rcases hb with ⟨c, _, hc⟩
  exact utf8EncodeCodepoint_lt c.toNat (char_toNat_lt c) b hc

theorem decodeStep_length {cs rest : List Char} {b : Nat}
    (h : decodeStep cs = some (b, rest)) : rest.length < cs.length := by
  cases cs with
  | nil => simp [decodeStep] at h
  | cons c cs' =>
    simp only [decodeStep] at h
    split_ifs at h with h1 h2 h3
    · cases h; simp
    · split at h
      · split at h
        · cases h
          simp only [List.length_cons]
          omega
        · exact absurd h (by simp)
      · exact absurd h (by simp)
    · cases h; simp

theorem decodeChars_nil : decodeChars [] = some [] := by
  rw [decodeChars]
  rfl

theorem decodeChars_step {cs rest : List Char} {b : Nat}
    (h : decodeStep cs = some (b, rest)) :
    decodeChars cs = (decodeChars rest).map (fun bs => b :: bs) := by
  have hne : cs.isEmpty = false := by
    cases cs
    · simp [decodeStep] at h
    · rfl
  rw [decodeChars]
  simp only [hne, Bool.false_eq_true, if_false]
  split
  · rename_i hnone
    rw [h] at hnone
    cases hnone
  · rename_i b' rest' hsome
    rw [h] at hsome
    cases hsome
    rfl

theorem hexVal_hexDig : ∀ n < 16, hexVal (hexDig n) = some n := by decide

theorem safeByte_char_facts : ∀ b < 256, isSafeByte b = true →
    (Char.ofNat b ≠ '+' ∧ Char.ofNat b ≠ '%' ∧ (Char.ofNat b).toNat = b ∧
      isSafeByte (Char.ofNat b).toNat = true) := by
  decide

theorem decodeStep_encodeByte (b : Nat) (hb : b < 256) (rest : List Char) :
    decodeStep (encodeByte b ++ rest) = some (b, rest) := by
  by_cases h32 : b = 32
  · subst h32
    simp [encodeByte, decodeStep]
  · by_cases hsafe : isSafeByte b
    · obtain ⟨hp, hpc, hn, hs⟩ := safeByte_char_facts b hb hsafe
      rw [encodeByte, if_neg h32, if_pos hsafe]
      simp only [List.cons_append, List.nil_append, decodeStep, if_neg hp,
        if_neg hpc, hn]
      rw [if_pos hsafe]
    · have hd1 : hexVal (hexDig (b / 16)) = some (b / 16) :=
        hexVal_hexDig _ (by omega)
      have hd2 : hexVal (hexDig (b % 16)) = some (b % 16) :=
        hexVal_hexDig _ (by omega)
      rw [encodeByte, if_neg h32, if_neg hsafe]
      simp only [List.cons_append, List.nil_append, decodeStep,
        if_neg (by decide : ¬ ('%' : Char) = '+'), if_pos rfl, hd1, hd2]
      have hb' : 16 * (b / 16) + b % 16 = b := by omega
      rw [hb']
      simp

theorem decodeChars_encodeByte (b : Nat) (hb : b < 256) (rest : List Char) :
    decodeChars (encodeByte b ++ rest) = (decodeChars rest).map (fun bs => b :: bs) :=
  decodeChars_step (decodeStep_encodeByte b hb rest)

theorem decodeChars_urlencodeChars (bs : List Nat) (h : ∀ b ∈ bs, b < 256) :
    decodeChars (urlencodeChars bs) = some bs := by
  induction bs with
  | nil => simp [urlencodeChars, decodeChars_nil]
  | cons b rest ih =>
    have hb : b < 256 := h b (by simp)
    have hrest : ∀ x ∈ rest, x < 256 := fun x hx => h x (List.mem_cons_of_mem _ hx)
    unfold urlencodeChars
    rw [List.flatMap_cons, decodeChars_encodeByte b hb]
    rw [urlencodeChars] at ih
    rw [ih hrest]
    rfl

theorem decode_urlencode (s : String) :
    decodeChars (urlencodeChars (utf8Nat s)) = some (utf8Nat s) :=
  decodeChars_urlencodeChars (utf8Nat s) (utf8Nat_lt s)

theorem encodeByte_no_delims : ∀ b < 256,
    ∀ c ∈ encodeByte b, c ≠ '&' ∧ c ≠ '=' := by decide

theorem urlencodeChars_no_delims (bs : List Nat) (h : ∀ b ∈ bs, b < 256) :
    ∀ c ∈ urlencodeChars bs, c ≠ '&' ∧ c ≠ '=' := by
  intro c hc
  unfold urlencodeChars at hc
  rw [List.mem_flatMap] at hc
  rcases hc with ⟨b, hb, hcb⟩
  exact encodeByte_no_delims b (h b hb) c hcb

theorem splitOnAmp_no_amp (xs : List Char) (h : ∀ c ∈ xs, c ≠ '&') :
    splitOnAmp xs = [xs] := by
  induction xs with
  | nil => rfl
  | cons c rest ih =>
    have hc : c ≠ '&' := h c (by simp)
    rw [splitOnAmp, if_neg hc, ih (fun x hx => h x (List.mem_cons_of_mem _ hx))]

theorem splitOnAmp_append (xs rest : List Char) (h : ∀ c ∈ xs, c ≠ '&') :
    splitOnAmp (xs ++ '&' :: rest) = xs :: splitOnAmp rest := by
  induction xs with
  | nil => simp [splitOnAmp]
  | cons c xs' ih =>
    have hc : c ≠ '&' := h c (by simp)
    rw [List.cons_append, splitOnAmp, if_neg hc,
      ih (fun x hx => h x (List.mem_cons_of_mem _ hx))]

theorem splitKV_append (k v : List Char) (h : ∀ c ∈ k, c ≠ '=') :
    splitKV (k ++ '=' :: v) = some (k, v) := by
  induction k with
  | nil => simp [splitKV]
  | cons c k' ih =>
    have hc : c ≠ '=' := h c (by simp)
    rw [List.cons_append, splitKV, if_neg hc,
      ih (fun x hx => h x (List.mem_cons_of_mem _ hx))]
    rfl

theorem parsePairChars_encodePair (p : String × String) :
    parsePairChars (encodePairChars p) = some (utf8Nat p.1, utf8Nat p.2) := by
  unfold parsePairChars encodePairChars
  rw [splitKV_append _ _
    (fun c hc => (urlencodeChars_no_delims _ (utf8Nat_lt p.1) c hc).2)]
  simp only [decodeChars_urlencodeChars _ (utf8Nat_lt p.1),
    decodeChars_urlencodeChars _ (utf8Nat_lt p.2)]

theorem encodePairChars_no_amp (p : String × String) :
    ∀ c ∈ encodePairChars p, c ≠ '&' := by
  intro c hc
  unfold encodePairChars at hc
  rw [List.mem_append] at hc
  rcases hc with hc | hc
  · exact (urlencodeChars_no_delims _ (utf8Nat_lt p.1) c hc).1
  · rcases List.mem_cons.mp hc with hc | hc
    · subst hc; decide
    · exact (urlencodeChars_no_delims _ (utf8Nat_lt p.2) c hc).1

theorem parseQueryChars_formEncode (p : String × String) (ps : List (String × String)) :
    parseQueryChars (formEncodeChars (p :: ps)) =
      some ((p :: ps).map (fun q => (utf8Nat q.1, utf8Nat q.2))) := by
  induction ps generalizing p with
  | nil =>
    unfold parseQueryChars formEncodeChars
    rw [splitOnAmp_no_amp _ (encodePairChars_no_amp p)]
    simp [parseComponents, parsePairChars_encodePair]
  | cons q rest ih =>
    unfold parseQueryChars formEncodeChars
    rw [splitOnAmp_append _ _ (encodePairChars_no_amp p)]
    have ihq := ih q
    unfold parseQueryChars at ihq
    simp only [parseComponents, parsePairChars_encodePair, ihq, List.map_cons]

theorem b64Val_b64Char : ∀ s < 64, b64Val (b64Char s) = some s := by decide

theorem b64Char_ne_pad : ∀ s < 64, b64Char s ≠ '=' := by decide

theorem base64_roundtrip (bs : List Nat) (h : ∀ b ∈ bs, b < 256) :
    base64DecodeChars (base64EncodeChars bs) = some bs := by
  induction bs using base64EncodeChars.induct with
  | case1 => rfl
  | case2 a =>
    have ha : a < 256 := h a (by simp)
    have h1 : a / 4 < 64 := by omega
    have h2 : a % 4 * 16 < 64 := by omega
    rw [base64EncodeChars, base64DecodeChars]
    simp only [if_pos (Or.inl rfl), if_pos rfl, base64DecodeGroup,
      b64Val_b64Char _ h1, b64Val_b64Char _ h2]
    have e0 : a / 4 * 4 + a % 4 * 16 / 16 = a := by omega
    rw [e0]
    simp
  | case3 a b =>
    have ha : a < 256 := h a (by simp)
    have hb : b < 256 := h b (by simp)
    have h1 : a / 4 < 64 := by omega
    have h2 : a % 4 * 16 + b / 16 < 64 := by omega
    have h3 : b % 16 * 4 < 64 := by omega
    rw [base64EncodeChars, base64DecodeChars]
    simp only [if_pos (Or.inr rfl), if_pos rfl, base64DecodeGroup,
      b64Val_b64Char _ h1, b64Val_b64Char _ h2, b64Val_b64Char _ h3,
      if_neg (b64Char_ne_pad _ h3), if_pos rfl]
    have e1 : a / 4 * 4 + (a % 4 * 16 + b / 16) / 16 = a := by omega
    have e2 : (a % 4 * 16 + b / 16) % 16 * 16 + b % 16 * 4 / 4 = b := by omega
    rw [e1, e2]
    simp
  | case4 a b c rest ih =>
    have ha : a < 256 := h a (by simp)
    have hb : b < 256 := h b (by simp)
    have hc : c < 256 := h c (by simp)
    have h1 : a / 4 < 64 := by omega
    have h2 : a % 4 * 16 + b / 16 < 64 := by omega
    have h3 : b % 16 * 4 + c / 64 < 64 := by omega
    have h4 : c % 64 < 64 := by omega
    have hrest : ∀ x ∈ rest, x < 256 := fun x hx => h x (by simp [hx])
    rw [base64EncodeChars, base64DecodeChars]
    rw [if_neg (by
      push_neg
      exact ⟨b64Char_ne_pad _ h3, b64Char_ne_pad _ h4⟩)]
    simp only [base64DecodeGroup, b64Val_b64Char _ h1, b64Val_b64Char _ h2,
      b64Val_b64Char _ h3, b64Val_b64Char _ h4,
      if_neg (b64Char_ne_pad _ h3), if_neg (b64Char_ne_pad _ h4)]
    rw [ih hrest]
    have e1 : a / 4 * 4 + (a % 4 * 16 + b / 16) / 16 = a := by omega
    have e2 : (a % 4 * 16 + b / 16) % 16 * 16 + (b % 16 * 4 + c / 64) / 4 = b := by omega
    have e3 : (b % 16 * 4 + c / 64) % 4 * 64 + c % 64 = c := by omega
    rw [e1, e2, e3]
    rfl

/-! ## Unfolding lemmas for the verification operations -/
theorem verifyReg_eq (s : PasslessState) (resp : RegistrationResponse)
    (ec : String)
    (rv : RegistrationResponse → String → String → String → RegistrationVerification) :
    verifyPasskeyRegistrationResponse s resp ec rv =
      if s.config.passkey.rpId = "" || s.config.passkey.origin = "" then
        .error "Passkey configuration is missing rpId or origin."
      else if jsOr ec resp.challenge = "" then
        .error "Unknown or expired registration challenge."
      else
        match mapGet s.challengeStore (jsOr ec resp.challenge) with
        | none => .error "Unknown or expired registration challenge."
        | some record =>
          let verification :=
            rv resp (jsOr ec resp.challenge) s.config.passkey.origin s.config.passkey.rpId
          if verification.verified then
            let cred : CredentialRecord :=
              { userId := record.userId,
                credentialID := verification.registrationInfo.credentialID,
                credentialPublicKey := verification.registrationInfo.credentialPublicKey,
                counter := verification.registrationInfo.counter,
                transports := resp.transports.getD [] }
            .ok (verification,
              { s with
                credentialStore := mapSet s.credentialStore
                  (base64urlEncode verification.registrationInfo.credentialID) cred,
                challengeStore := mapDelete s.challengeStore (jsOr ec resp.challenge) })
          else .ok (verification, s) := by
  unfold verifyPasskeyRegistrationResponse assertPasskeyConfig
  by_cases hc : s.config.passkey.rpId = "" || s.config.passkey.origin = ""
  · simp only [hc, if_true]
    rfl
  · simp only [hc, if_false]
    rfl

theorem verifyAuth_eq (s : PasslessState) (resp : AuthenticationResponse)
    (ec : String)
    (av : AuthenticationResponse → String → String → String →
      CredentialParam → AuthenticationVerification) :
    verifyPasskeyAuthenticationResponse s resp ec av =
      if s.config.passkey.rpId = "" || s.config.passkey.origin = "" then
        .error "Passkey configuration is missing rpId or origin."
      else if jsOr ec resp.challenge = "" then
        .error "Unknown or expired authentication challenge."
      else
        match mapGet s.challengeStore (jsOr ec resp.challenge) with
        | none => .error "Unknown or expired authentication challenge."
        | some _record =>
          match mapGet s.credentialStore (jsOr resp.id resp.rawId) with
          | none => .error "Unknown credential."
          | some stored =>
            let verification := av resp (jsOr ec resp.challenge)
              s.config.passkey.origin s.config.passkey.rpId
              { id := stored.credentialID, publicKey := stored.credentialPublicKey,
                counter := stored.counter, transports := stored.transports }
            if verification.verified then
              let updated : CredentialRecord :=
                { stored with counter := verification.authenticationInfo.newCounter }
              .ok (verification,
                { s with
                  credentialStore :=
                    mapSet s.credentialStore (jsOr resp.id resp.rawId) updated,
                  challengeStore :=
                    mapDelete s.challengeStore (jsOr ec resp.challenge) })
            else .ok (verification, s) := by
  unfold verifyPasskeyAuthenticationResponse assertPasskeyConfig
  by_cases hc : s.config.passkey.rpId = "" || s.config.passkey.origin = ""
  · simp only [hc, if_true]
    rfl
  · simp only [hc, if_false]
    rfl

theorem verifyReg_ok_inv {s : PasslessState} {resp : RegistrationResponse}
    {ec : String}
    {rv : RegistrationResponse → String → String → String → RegistrationVerification}
    {v : RegistrationVerification} {s' : PasslessState}
    (h : verifyPasskeyRegistrationResponse s resp ec rv = .ok (v, s'))
    (hv : v.verified = true) :
    ∃ record : ChallengeRecord,
      mapGet s.challengeStore (jsOr ec resp.challenge) = some record ∧
      v = rv resp (jsOr ec resp.challenge) s.config.passkey.origin s.config.passkey.rpId ∧
      s'.credentialStore = mapSet s.credentialStore
        (base64urlEncode v.registrationInfo.credentialID)
        ({ userId := record.userId,
           credentialID := v.registrationInfo.credentialID,
           credentialPublicKey := v.registrationInfo.credentialPublicKey,
           counter := v.registrationInfo.counter,
           transports := resp.transports.getD [] }) ∧
      s'.challengeStore = mapDelete s.challengeStore (jsOr ec resp.challenge) ∧
      s'.config = s.config ∧
      (s.config.passkey.rpId = "" || s.config.passkey.origin = "") = false := by
  rw [verifyReg_eq] at h
  split_ifs at h with h1 h2
  split at h
  · exact Except.noConfusion h
  · rename_i record hrec
    dsimp only at h
    split at h
    · rename_i hver
      cases h
      exact ⟨record, hrec, rfl, rfl, rfl, rfl, by simpa using h1⟩
    · rename_i hver
      cases h
      exact absurd hv hver

theorem verifyAuth_ok_inv {s : PasslessState} {resp : AuthenticationResponse}
    {ec : String}
    {av : AuthenticationResponse → String → String → String →
      CredentialParam → AuthenticationVerification}
    {v : AuthenticationVerification} {s' : PasslessState}
    (h : verifyPasskeyAuthenticationResponse s resp ec av = .ok (v, s'))
    (hv : v.verified = true) :
    ∃ stored : CredentialRecord,
      mapGet s.credentialStore (jsOr resp.id resp.rawId) = some stored ∧
      v = av resp (jsOr ec resp.challenge) s.config.passkey.origin s.config.passkey.rpId
        ({ id := stored.credentialID, publicKey := stored.credentialPublicKey,
           counter := stored.counter, transports := stored.transports }) ∧
      s'.credentialStore = mapSet s.credentialStore (jsOr resp.id resp.rawId)
        ({ stored with counter := v.authenticationInfo.newCounter }) ∧
      s'.challengeStore = mapDelete s.challengeStore (jsOr ec resp.challenge) ∧
      s'.config = s.config ∧
      (s.config.passkey.rpId = "" || s.config.passkey.origin = "") = false := by
  rw [verifyAuth_eq] at h
  split_ifs at h with h1 h2
  split at h
  · exact Except.noConfusion h
  · split at h
    · exact Except.noConfusion h
    · rename_i stored hstored
      dsimp only at h
      split at h
      · rename_i hver
        cases h
        exact ⟨stored, hstored, rfl, rfl, rfl, rfl, by simpa using h1⟩
      · rename_i hver
        cases h
        exact absurd hv hver

theorem verifyReg_unknown {s : PasslessState} {resp : RegistrationResponse}
    {ec : String}
    (rv : RegistrationResponse → String → String → String → RegistrationVerification)
    (hcfg : (s.config.passkey.rpId = "" || s.config.passkey.origin = "") = false)
    (hnone : mapGet s.challengeStore (jsOr ec resp.challenge) = none) :
    verifyPasskeyRegistrationResponse s resp ec rv =
      .error "Unknown or expired registration challenge." := by
  rw [verifyReg_eq]
  simp only [hcfg, Bool.false_eq_true, if_false]
  by_cases hch : jsOr ec resp.challenge = ""
  · rw [if_pos hch]
  · rw [if_neg hch, hnone]

theorem verifyAuth_unknown {s : PasslessState} {resp : AuthenticationResponse}
    {ec : String}
    (av : AuthenticationResponse → String → String → String →
      CredentialParam → AuthenticationVerification)
    (hcfg : (s.config.passkey.rpId = "" || s.config.passkey.origin = "") = false)
    (hnone : mapGet s.challengeStore (jsOr ec resp.challenge) = none) :
    verifyPasskeyAuthenticationResponse s resp ec av =
      .error "Unknown or expired authentication challenge." := by
  rw [verifyAuth_eq]
  simp only [hcfg, Bool.false_eq_true, if_false]
  by_cases hch : jsOr ec resp.challenge = ""
  · rw [if_pos hch]
  · rw [if_neg hch, hnone]

/-- C1: challenges are single-use.  A registration or authentication
verification that returns with the delegated verifier reporting `verified`
deletes the resolved challenge from the challenge store; with the passkey
configuration present, a verification attempt whose resolved challenge has no
stored record fails with the unknown-or-expired-challenge error; consequently
any verification call after a verified consumption of `c` that resolves to
`c` again fails with that error. -/
theorem challenge_single_use (s : PasslessState) (c : String) :
    (∀ resp ec rv v s', jsOr ec resp.challenge = c →
       verifyPasskeyRegistrationResponse s resp ec rv = .ok (v, s') →
       v.verified = true → mapGet s'.challengeStore c = none) ∧
    (∀ resp ec av v s', jsOr ec resp.challenge = c →
       verifyPasskeyAuthenticationResponse s resp ec av = .ok (v, s') →
       v.verified = true → mapGet s'.challengeStore c = none) ∧
    (s.config.passkey.rpId ≠ "" → s.config.passkey.origin ≠ "" →
     mapGet s.challengeStore c = none →
       (∀ resp ec rv, jsOr ec resp.challenge = c →
          verifyPasskeyRegistrationResponse s resp ec rv =
            .error "Unknown or expired registration challenge.") ∧
       (∀ resp ec av, jsOr ec resp.challenge = c →
          verifyPasskeyAuthenticationResponse s resp ec av =
            .error "Unknown or expired authentication challenge.")) ∧
    (∀ resp ec rv v s', jsOr ec resp.challenge = c →
       verifyPasskeyRegistrationResponse s resp ec rv = .ok (v, s') →
       v.verified = true →
       (∀ resp2 ec2 rv2, jsOr ec2 resp2.challenge = c →
          verifyPasskeyRegistrationResponse s' resp2 ec2 rv2 =
            .error "Unknown or expired registration challenge.") ∧
       (∀ resp2 ec2 av2, jsOr ec2 resp2.challenge = c →
          verifyPasskeyAuthenticationResponse s' resp2 ec2 av2 =
            .error "Unknown or expired authentication challenge.")) ∧
    (∀ resp ec av v s', jsOr ec resp.challenge = c →
       verifyPasskeyAuthenticationResponse s resp ec av = .ok (v, s') →
       v.verified = true →
       (∀ resp2 ec2 rv2, jsOr ec2 resp2.challenge = c →
          verifyPasskeyRegistrationResponse s' resp2 ec2 rv2 =
            .error "Unknown or expired registration challenge.") ∧
       (∀ resp2 ec2 av2, jsOr ec2 resp2.challenge = c →
          verifyPasskeyAuthenticationResponse s' resp2 ec2 av2 =
            .error "Unknown or expired authentication challenge.")) := by
  refine ⟨?_, ?_, ?_, ?_, ?_⟩
  · intro resp ec rv v s' hres hok hv
    obtain ⟨record, _, _, _, hchal, _, _⟩ := verifyReg_ok_inv hok hv
    rw [hchal, hres]
    exact mapGet_mapDelete _ _
  · intro resp ec av v s' hres hok hv
    obtain ⟨stored, _, _, _, hchal, _, _⟩ := verifyAuth_ok_inv hok hv
    rw [hchal, hres]
    exact mapGet_mapDelete _ _
  · intro h1 h2 hnone
    have hcfg : (s.config.passkey.rpId = "" || s.config.passkey.origin = "") = false := by
      simp [h1, h2]
    exact ⟨fun resp ec rv hres => verifyReg_unknown rv hcfg (by rwa [hres]),
      fun resp ec av hres => verifyAuth_unknown av hcfg (by rwa [hres])⟩
  · intro resp ec rv v s' hres hok hv
    obtain ⟨record, _, _, _, hchal, hcfgeq, hcfgok⟩ := verifyReg_ok_inv hok hv
    have hnone' : mapGet s'.challengeStore c = none := by
      rw [hchal, hres]
      exact mapGet_mapDelete _ _
    have hcfg' : (s'.config.passkey.rpId = "" || s'.config.passkey.origin = "") = false := by
      rw [hcfgeq]
      exact hcfgok
    exact ⟨fun r2 e2 rv2 hres2 => verifyReg_unknown rv2 hcfg' (by rwa [hres2]),
      fun r2 e2 av2 hres2 => verifyAuth_unknown av2 hcfg' (by rwa [hres2])⟩
  · intro resp ec av v s' hres hok hv
    obtain ⟨stored, _, _, _, hchal, hcfgeq, hcfgok⟩ := verifyAuth_ok_inv hok hv
    have hnone' : mapGet s'.challengeStore c = none := by
      rw [hchal, hres]
      exact mapGet_mapDelete _ _
    have hcfg' : (s'.config.passkey.rpId = "" || s'.config.passkey.origin = "") = false := by
      rw [hcfgeq]
      exact hcfgok
    exact ⟨fun r2 e2 rv2 hres2 => verifyReg_unknown rv2 hcfg' (by rwa [hres2]),
      fun r2 e2 av2 hres2 => verifyAuth_unknown av2 hcfg' (by rwa [hres2])⟩

/-- C1 witness: on a concrete state with an empty challenge store and the
passkey configuration present, a registration verification resolving to
`"ch1"` fails with the unknown-challenge error. -/
theorem challenge_single_use_witness :
    verifyPasskeyRegistrationResponse emptyState regRespDemo "ch1" regVerifierYes =
      .error "Unknown or expired registration challenge." :=
  ((challenge_single_use emptyState "ch1").2.2.1 (by decide) (by decide)
    (by decide)).1 regRespDemo "ch1" regVerifierYes (by decide)

/-- C2: a registration verification for which the delegated verifier
reports `verified: false` returns that verification result rather than
throwing, and leaves the whole state — in particular the stored challenge
record and the credential store — unchanged. -/
theorem registration_failure_preserves_state (s : PasslessState)
    (resp : RegistrationResponse) (ec : String)
    (rv : RegistrationResponse → String → String → String → RegistrationVerification)
    (record : ChallengeRecord)
    (hcfg : s.config.passkey.rpId ≠ "" ∧ s.config.passkey.origin ≠ "")
    (hch : jsOr ec resp.challenge ≠ "")
    (hrec : mapGet s.challengeStore (jsOr ec resp.challenge) = some record)
    (hfail : (rv resp (jsOr ec resp.challenge) s.config.passkey.origin
      s.config.passkey.rpId).verified = false) :
    verifyPasskeyRegistrationResponse s resp ec rv =
      .ok (rv resp (jsOr ec resp.challenge) s.config.passkey.origin
        s.config.passkey.rpId, s) := by
  rw [verifyReg_eq]
  have hb : (s.config.passkey.rpId = "" || s.config.passkey.origin = "") = false := by
    simp [hcfg.1, hcfg.2]
  simp only [hb, Bool.false_eq_true, if_false, if_neg hch, hrec]
  rw [if_neg (by simp [hfail])]

/-- C2 witness: concrete failing registration verification on a state
holding challenge `"ch1"`. -/
theorem registration_failure_preserves_state_witness :
    verifyPasskeyRegistrationResponse chalState regRespDemo "" regVerifierNo =
      .ok (regVerifierNo regRespDemo "ch1" "https://example.com" "example.com",
        chalState) :=
  registration_failure_preserves_state chalState regRespDemo "" regVerifierNo
    { userId := "u1", createdAt := 0 } (by decide) (by decide) (by decide)
    (by decide)

/-- C3: a successful authentication verification never decreases the
stored signature counter.  The contract of the delegated library — on a verified
result the reported `newCounter` is at least the stored counter it was given
— is the hypothesis `hlib`; the code persists exactly the reported counter,
so the stored counter never decreases. -/
theorem auth_counter_monotone (s : PasslessState)
    (resp : AuthenticationResponse) (ec : String)
    (av : AuthenticationResponse → String → String → String →
      CredentialParam → AuthenticationVerification)
    (v : AuthenticationVerification) (s' : PasslessState)
    (credId : String) (stored : CredentialRecord)
    (hcred : jsOr resp.id resp.rawId = credId)
    (hstored : mapGet s.credentialStore credId = some stored)
    (hok : verifyPasskeyAuthenticationResponse s resp ec av = .ok (v, s'))
    (hv : v.verified = true)
    (hlib : ∀ r ch o rp cred, (av r ch o rp cred).verified = true →
      cred.counter ≤ (av r ch o rp cred).authenticationInfo.newCounter) :
    ∃ stored' : CredentialRecord,
      mapGet s'.credentialStore credId = some stored' ∧
      stored.counter ≤ stored'.counter := by
  obtain ⟨stored0, hstored0, hveq, hcredstore, _, _, _⟩ := verifyAuth_ok_inv hok hv
  rw [hcred] at hstored0 hcredstore
  have heq : stored0 = stored := by
    rw [hstored0] at hstored
    exact Option.some.inj hstored
  subst heq
  refine ⟨{ stored0 with counter := v.authenticationInfo.newCounter }, ?_, ?_⟩
  · rw [hcredstore]
    exact mapGet_mapSet_self _ _ _
  · have := hlib resp (jsOr ec resp.challenge) s.config.passkey.origin
      s.config.passkey.rpId
      { id := stored0.credentialID, publicKey := stored0.credentialPublicKey,
        counter := stored0.counter, transports := stored0.transports }
    rw [← hveq] at this
    exact this hv

/-- C3 witness: concrete verified authentication bumping the stored
counter from 5 to 6. -/
theorem auth_counter_monotone_witness :
    ∃ stored' : CredentialRecord,
      mapGet
        (PasslessState.mk cfgDemo []
          [("AQID",
            { userId := "u1", credentialID := [1, 2, 3],
              credentialPublicKey := [9], counter := 6,
              transports := ["usb"] })]).credentialStore "AQID" =
        some stored' ∧ 5 ≤ stored'.counter :=
  auth_counter_monotone credState authRespDemo "" authVerifierInc
    { verified := true, authenticationInfo := { newCounter := 6 } }
    (PasslessState.mk cfgDemo []
      [("AQID",
        { userId := "u1", credentialID := [1, 2, 3], credentialPublicKey := [9],
          counter := 6, transports := ["usb"] })])
    "AQID"
    { userId := "u1", credentialID := [1, 2, 3], credentialPublicKey := [9],
      counter := 5, transports := ["usb"] }
    (by decide) (by decide) rfl (by decide)
    (fun r ch o rp cred _ => Nat.le_succ cred.counter)

/-- C4: with google `clientId` and `redirectUri` configured,
`getAuthUrl(google, state)` returns a URL made of the google authorization
endpoint followed by a query string that parses back (split on `&`, split at
`=`, percent-decode) to exactly the seven parameters `client_id`,
`redirect_uri`, `response_type=code`, `scope`, `access_type=offline`,
`prompt=consent` and `state` with the configured values — i.e. the values are
correctly URL-encoded.  In the concrete scenario with clientId `abc` and
state `xyz`, the URL contains `client_id=abc` and `state=xyz`. -/
theorem getAuthUrl_google_query (cfg : PasslessConfig) (st : String)
    (hcid : cfg.google.clientId ≠ "") (hruri : cfg.google.redirectUri ≠ "") :
    (∃ q : List Char,
      getAuthUrl cfg "google" st =
        .ok ("https://accounts.google.com/o/oauth2/v2/auth?" ++ String.mk q) ∧
      parseQueryChars q = some
        [(utf8Nat "client_id", utf8Nat cfg.google.clientId),
         (utf8Nat "redirect_uri", utf8Nat cfg.google.redirectUri),
         (utf8Nat "response_type", utf8Nat "code"),
         (utf8Nat "scope", utf8Nat "openid email profile"),
         (utf8Nat "access_type", utf8Nat "offline"),
         (utf8Nat "prompt", utf8Nat "consent"),
         (utf8Nat "state", utf8Nat st)]) ∧
    (∃ pre post : String,
      getAuthUrl cfgDemo "google" "xyz" = .ok (pre ++ "client_id=abc" ++ post)) ∧
    (∃ pre post : String,
      getAuthUrl cfgDemo "google" "xyz" = .ok (pre ++ "state=xyz" ++ post)) := by
  refine ⟨⟨formEncodeChars
      [("client_id", cfg.google.clientId),
       ("redirect_uri", cfg.google.redirectUri),
       ("response_type", "code"),
       ("scope", "openid email profile"),
       ("access_type", "offline"),
       ("prompt", "consent"),
       ("state", st)], rfl, ?_⟩, ?_, ?_⟩
  · rw [parseQueryChars_formEncode]
    simp
  · exact ⟨"https://accounts.google.com/o/oauth2/v2/auth?",
      "&redirect_uri=http%3A%2F%2Flocalhost%2Fcb&response_type=code&scope=openid+email+profile&access_type=offline&prompt=consent&state=xyz",
      rfl⟩
  · exact ⟨"https://accounts.google.com/o/oauth2/v2/auth?client_id=abc&redirect_uri=http%3A%2F%2Flocalhost%2Fcb&response_type=code&scope=openid+email+profile&access_type=offline&prompt=consent&",
      "", rfl⟩

/-- C4 witness: the theorem applied at the concrete scenario
configuration. -/
theorem getAuthUrl_google_query_witness :
    ∃ pre post : String,
      getAuthUrl cfgDemo "google" "xyz" = .ok (pre ++ "client_id=abc" ++ post) :=
  (getAuthUrl_google_query cfgDemo "xyz" (by decide) (by decide)).2.1

/-- C5: `getAuthUrl` with any provider other than `google` or `yandex`
fails with the unsupported-provider error and never returns a URL.  The
method reads only the configuration and mutates nothing, which the embedding
reflects by making `getAuthUrl` a pure function of the configuration: no
challenge-store, credential-store or configuration change is possible. -/
theorem getAuthUrl_unsupported_provider (cfg : PasslessConfig)
    (provider st : String)
    (h1 : provider ≠ "google") (h2 : provider ≠ "yandex") :
    getAuthUrl cfg provider st =
      .error "Unsupported provider. Use \"google\" or \"yandex\"." ∧
    ∀ url : String, getAuthUrl cfg provider st ≠ .ok url := by
  unfold getAuthUrl
  rw [if_neg h1, if_neg h2]
  exact ⟨rfl, fun url h => Except.noConfusion h⟩

/-- C5 witness: a concrete unsupported provider name. -/
theorem getAuthUrl_unsupported_provider_witness :
    getAuthUrl cfgDemo "github" "xyz" =
      .error "Unsupported provider. Use \"google\" or \"yandex\"." :=
  (getAuthUrl_unsupported_provider cfgDemo "github" "xyz" (by decide)
    (by decide)).1

/-- C6: for a supported provider and non-empty code, a non-2xx token
endpoint response makes `exchangeCode` fail with the token-exchange error
carrying the HTTP status and raw body; the trace shows the token POST was the
only HTTP call, so no profile fetch was performed and no token is returned. -/
theorem exchangeCode_token_failure (cfg : PasslessConfig)
    (provider code overrideRedirectUri : String)
    (fetchPost : TokenRequest → FetchResult OAuthToken)
    (fetchGet : String → String → FetchResult OAuthProfile)
    (hp : provider = "google" ∨ provider = "yandex")
    (hc : code ≠ "")
    (hfail : (fetchPost (tokenRequestFor cfg provider code overrideRedirectUri)).ok
      = false) :
    exchangeCode cfg provider code overrideRedirectUri fetchPost fetchGet =
      (.error ("Token exchange failed (" ++
          toString (fetchPost
            (tokenRequestFor cfg provider code overrideRedirectUri)).status ++
          "): " ++
          (fetchPost (tokenRequestFor cfg provider code overrideRedirectUri)).body),
        [FetchCall.token (tokenRequestFor cfg provider code overrideRedirectUri)]) := by
  rcases hp with hp | hp <;> subst hp
  · unfold exchangeCode
    rw [if_neg hc, if_pos rfl]
    simp only [exchangeOAuthCode, hfail, Bool.not_false, if_true]
  · unfold exchangeCode
    rw [if_neg hc, if_neg (by decide), if_pos rfl]
    simp only [exchangeOAuthCode, hfail, Bool.not_false, if_true]

/-- C6 witness: concrete failing token exchange against google. -/
theorem exchangeCode_token_failure_witness :
    exchangeCode cfgDemo "google" "thecode" "" fetchPostFail fetchGetDemo =
      (.error ("Token exchange failed (" ++ toString (500 : Nat) ++ "): " ++ "boom"),
        [FetchCall.token (tokenRequestFor cfgDemo "google" "thecode" "")]) :=
  exchangeCode_token_failure cfgDemo "google" "thecode" "" fetchPostFail
    fetchGetDemo (Or.inl rfl) (by decide) rfl

/-- C7: every passkey operation first asserts that the relying-party id
and origin are configured; when either is missing (the empty string models a falsy value)
the operation fails with the configuration error, for every input, every
store contents and every value of the external-library oracle — i.e. before
the stores are read or written and before the library is called. -/
theorem passkey_ops_require_config (s : PasslessState)
    (h : s.config.passkey.rpId = "" ∨ s.config.passkey.origin = "") :
    (∀ userId username displayName gen now,
       createPasskeyRegistrationOptions s userId username displayName gen now =
         .error "Passkey configuration is missing rpId or origin.") ∧
    (∀ resp ec rv,
       verifyPasskeyRegistrationResponse s resp ec rv =
         .error "Passkey configuration is missing rpId or origin.") ∧
    (∀ userId gen now,
       createPasskeyAuthenticationOptions s userId gen now =
         .error "Passkey configuration is missing rpId or origin.") ∧
    (∀ resp ec av,
       verifyPasskeyAuthenticationResponse s resp ec av =
         .error "Passkey configuration is missing rpId or origin.") := by
  have hb : (s.config.passkey.rpId = "" || s.config.passkey.origin = "") = true := by
    rcases h with h | h <;> simp [h]
  refine ⟨?_, ?_, ?_, ?_⟩
  · intro userId username displayName gen now
    unfold createPasskeyRegistrationOptions assertPasskeyConfig
    rw [if_pos hb]
    rfl
  · intro resp ec rv
    unfold verifyPasskeyRegistrationResponse assertPasskeyConfig
    rw [if_pos hb]
    rfl
  · intro userId gen now
    unfold createPasskeyAuthenticationOptions assertPasskeyConfig
    rw [if_pos hb]
    rfl
  · intro resp ec av
    unfold verifyPasskeyAuthenticationResponse assertPasskeyConfig
    rw [if_pos hb]
    rfl

/-- C7 witness: with `rpId` unset, issuing registration options fails
with the configuration error. -/
theorem passkey_ops_require_config_witness :
    createPasskeyRegistrationOptions stateNoRp "u1" "alice" "Alice" genRegDemo 0 =
      .error "Passkey configuration is missing rpId or origin." :=
  (passkey_ops_require_config stateNoRp (Or.inl rfl)).1 "u1" "alice" "Alice"
    genRegDemo 0

/-- C10: `exchangeCode` called with a missing/empty authorization code
fails with the required-code validation error before the provider name is
examined — the statement holds for every provider string, including
unsupported ones — and the empty trace shows no HTTP call is performed. -/
theorem exchangeCode_requires_code (cfg : PasslessConfig)
    (provider overrideRedirectUri : String)
    (fetchPost : TokenRequest → FetchResult OAuthToken)
    (fetchGet : String → String → FetchResult OAuthProfile) :
    exchangeCode cfg provider "" overrideRedirectUri fetchPost fetchGet =
      (.error "Authorization code is required.", []) := by
  unfold exchangeCode
  rw [if_pos rfl]

theorem mapGet_none_any_false {α : Type} {m : List (String × α)} {k : String}
    (h : mapGet m k = none) : m.any (fun p => p.1 = k) = false := by
  cases hfind : m.find? (fun p => p.1 = k) with
  | some p =>
    unfold mapGet at h
    rw [hfind] at h
    simp at h
  | none =>
    rw [List.any_eq_false]
    intro x hx
    exact List.find?_eq_none.mp hfind x hx

theorem mapSet_length_fresh {α : Type} (m : List (String × α)) (k : String)
    (v : α) (h : mapGet m k = none) : (mapSet m k v).length = m.length + 1 := by
  unfold mapSet
  rw [mapGet_none_any_false h]
  simp

/-- C8 counterexample: the claim says that the transports stored in the credential record are
taken from the verification result; on this concrete input the
result of the delegated verifier reports transports `["nfc"]`, while the record
actually stored carries `["usb"]` — the `transports` field of the
registration response (`response.transports || []` in the source). -/
theorem registration_transports_cex :
    ∃ v : RegistrationVerification, ∃ s' : PasslessState,
      verifyPasskeyRegistrationResponse chalState regRespDemo "" regVerifierYes =
        .ok (v, s') ∧
      v.verified = true ∧
      v.registrationInfo.transports = ["nfc"] ∧
      (mapGet s'.credentialStore (base64urlEncode [1, 2, 3])).map
        (fun c => c.transports) = some ["usb"] ∧
      some ["nfc"] ≠ (mapGet s'.credentialStore (base64urlEncode [1, 2, 3])).map
        (fun c => c.transports) := by
  refine ⟨_, _, rfl, rfl, rfl, by decide, by decide⟩

/-- C8 amended: for a stored challenge owned by `u`, a registration
response the delegated verifier accepts, and a credential id not yet present
in the credential store, `verifyPasskeyRegistrationResponse` adds exactly one
new credential record, keyed by the base64url encoding of the credential id,
owned by `u`, with the initial signature counter taken from the verification
result and the transports taken from the registration response (empty when
absent), and removes the consumed challenge from the challenge store. -/
theorem registration_success_stores_credential (s : PasslessState)
    (resp : RegistrationResponse) (ec : String)
    (rv : RegistrationResponse → String → String → String → RegistrationVerification)
    (record : ChallengeRecord)
    (hcfg : s.config.passkey.rpId ≠ "" ∧ s.config.passkey.origin ≠ "")
    (hch : jsOr ec resp.challenge ≠ "")
    (hrec : mapGet s.challengeStore (jsOr ec resp.challenge) = some record)
    (hver : (rv resp (jsOr ec resp.challenge) s.config.passkey.origin
      s.config.passkey.rpId).verified = true)
    (hfresh : mapGet s.credentialStore
      (base64urlEncode (rv resp (jsOr ec resp.challenge) s.config.passkey.origin
        s.config.passkey.rpId).registrationInfo.credentialID) = none) :
    ∃ s' : PasslessState,
      verifyPasskeyRegistrationResponse s resp ec rv =
        .ok (rv resp (jsOr ec resp.challenge) s.config.passkey.origin
          s.config.passkey.rpId, s') ∧
      mapGet s'.credentialStore
        (base64urlEncode (rv resp (jsOr ec resp.challenge)
          s.config.passkey.origin s.config.passkey.rpId).registrationInfo.credentialID) =
        some { userId := record.userId,
               credentialID := (rv resp (jsOr ec resp.challenge)
                 s.config.passkey.origin s.config.passkey.rpId).registrationInfo.credentialID,
               credentialPublicKey := (rv resp (jsOr ec resp.challenge)
                 s.config.passkey.origin s.config.passkey.rpId).registrationInfo.credentialPublicKey,
               counter := (rv resp (jsOr ec resp.challenge)
                 s.config.passkey.origin s.config.passkey.rpId).registrationInfo.counter,
               transports := resp.transports.getD [] } ∧
      s'.credentialStore.length = s.credentialStore.length + 1 ∧
      mapGet s'.challengeStore (jsOr ec resp.challenge) = none := by
  have hb : (s.config.passkey.rpId = "" || s.config.passkey.origin = "") = false := by
    simp [hcfg.1, hcfg.2]
  refine ⟨PasslessState.mk s.config
      (mapDelete s.challengeStore (jsOr ec resp.challenge))
      (mapSet s.credentialStore
        (base64urlEncode (rv resp (jsOr ec resp.challenge)
          s.config.passkey.origin s.config.passkey.rpId).registrationInfo.credentialID)
        (CredentialRecord.mk record.userId
          (rv resp (jsOr ec resp.challenge) s.config.passkey.origin
            s.config.passkey.rpId).registrationInfo.credentialID
          (rv resp (jsOr ec resp.challenge) s.config.passkey.origin
            s.config.passkey.rpId).registrationInfo.credentialPublicKey
          (rv resp (jsOr ec resp.challenge) s.config.passkey.origin
            s.config.passkey.rpId).registrationInfo.counter
          (resp.transports.getD []))), ?_, ?_, ?_, ?_⟩
  · rw [verifyReg_eq]
    simp only [hb, Bool.false_eq_true, if_false, if_neg hch, hrec]
    rw [if_pos hver]
  · exact mapGet_mapSet_self _ _ _
  · exact mapSet_length_fresh _ _ _ hfresh
  · exact mapGet_mapDelete _ _

/-- C8 witness for the amended theorem: a concrete accepted registration
on a fresh credential id. -/
theorem registration_success_stores_credential_witness :
    ∃ s' : PasslessState,
      verifyPasskeyRegistrationResponse chalState regRespDemo "" regVerifierYes =
        .ok (regVerifierYes regRespDemo "ch1" "https://example.com" "example.com",
          s') ∧
      mapGet s'.credentialStore (base64urlEncode [1, 2, 3]) =
        some { userId := "u1", credentialID := [1, 2, 3],
               credentialPublicKey := [9], counter := 5,
               transports := ["usb"] } ∧
      s'.credentialStore.length = chalState.credentialStore.length + 1 ∧
      mapGet s'.challengeStore "ch1" = none :=
  registration_success_stores_credential chalState regRespDemo "" regVerifierYes
    { userId := "u1", createdAt := 0 } (by decide) (by decide) (by decide)
    (by decide) (by decide)

/-- C9: the two public conversion helpers of `PasskeyAuth` are mutually
inverse on byte buffers: decoding the base64 encoding of any byte buffer
gives back exactly the original bytes. -/
theorem base64_conversion_roundtrip (bs : List Nat) (h : ∀ b ∈ bs, b < 256) :
    PasskeyAuth.base64ToArrayBuffer (PasskeyAuth.arrayBufferToBase64 bs) =
      some bs := by
  unfold PasskeyAuth.base64ToArrayBuffer PasskeyAuth.arrayBufferToBase64
  exact base64_roundtrip bs h

/-- C9 witness: round trip of the concrete buffer `[0, 77, 255, 10]`. -/
theorem base64_conversion_roundtrip_witness :
    PasskeyAuth.base64ToArrayBuffer
      (PasskeyAuth.arrayBufferToBase64 [0, 77, 255, 10]) =
      some [0, 77, 255, 10] :=
  base64_conversion_roundtrip [0, 77, 255, 10] (by decide)
